import Mathlib

/-
  Verification of the turn-orchestration and mission-tracking core of the
  Chess-trainer repository.

  The chess rules library (chess.js) and the engine worker are external
  collaborators; they are modelled as an abstract `Oracle` interface whose
  contract captures the behaviour the orchestration code relies on.  The
  orchestration code itself (the `makeAiMove` effect, `handleSquareClick`,
  `resetGame`, the mission-check effect, and the service functions in
  geminiService.ts) is embedded shallowly: each `async` handler becomes a
  total function from its inputs (including the values resolved by awaited
  promises and the value drawn by Math.random) to an explicit outcome record.
-/

namespace ChessTrainer

/-- Side to move, chess.js `'w' | 'b'` (types.ts `PlayerColor`). -/
inductive Color where
  | white
  | black
deriving DecidableEq, Repr

def Color.flip : Color → Color
  | .white => .black
  | .black => .white

/-- Observable state of one chess.js `Chess` instance: the mutable rules
object owned by the Turn Coordinator.  `fen` is the opaque position string;
`history` is the SAN move list since construction. -/
structure ChessGame where
  fen : String
  turn : Color
  isCheck : Bool
  isCheckmate : Bool
  history : List String
deriving DecidableEq, Repr

/-- types.ts `GameState`: the React snapshot the presentation layer reads.
`updateState` in Board copies the live instance into this record. -/
structure GameState where
  fen : String
  turn : Color
  isCheck : Bool
  isCheckmate : Bool
  history : List String
deriving DecidableEq, Repr

/-- Board's `updateState`: project the live chess.js instance into the
`GameState` snapshot (src/unnamed/part_002 lines 35-44). -/
def projectGame (g : ChessGame) : GameState :=
  { fen := g.fen, turn := g.turn, isCheck := g.isCheck,
    isCheckmate := g.isCheckmate, history := g.history }

/-- A chess.js verbose move record (the parts the core reads). -/
structure MoveRec where
  fromSq : String
  toSq : String
  piece : Char
  san : String
deriving DecidableEq, Repr

/-- The object form passed to chess.js `move({from, to, promotion})`. -/
structure MoveInput where
  fromSq : String
  toSq : String
  promo : String
deriving DecidableEq, Repr

/-- A piece as returned by chess.js `get(square)`. -/
structure Piece where
  ptype : Char
  color : Color
deriving DecidableEq, Repr

/-- The Rules Oracle: the slice of the chess.js interface the orchestration
core consumes, together with the contract the core relies on.
`movesSan` is `moves()` (SAN list of all legal moves), `applySan` is
`move(string)`, `applyMove` is `move({from, to, promotion})` where `none`
models the thrown/`null` result on an illegal move, `pieceAt` is
`get(square)`, and `movesFrom` is `moves({square, verbose: true})`. -/
structure Oracle where
  movesSan : ChessGame → List String
  applySan : ChessGame → String → Option ChessGame
  applyMove : ChessGame → MoveInput → Option (MoveRec × ChessGame)
  pieceAt : ChessGame → String → Option Piece
  movesFrom : ChessGame → String → List MoveRec
  applySan_some : ∀ g s, s ∈ movesSan g → (applySan g s).isSome
  applySan_turn : ∀ g s g', applySan g s = some g' → g'.turn = g.turn.flip

/-- Reply of `getAiMoveAndCommentary` when it resolves non-null. -/
structure AiReply where
  move : String
  commentary : String
  opening : Option String
deriving DecidableEq, Repr

/-- part_002 lines 77-81: split a LAN token `"e2e4"` / `"a7a8q"` into the
object passed to chess.js, defaulting the promotion piece to queen
(`promotion: promotion || 'q'`). -/
def lanToInput (tok : String) : MoveInput :=
  { fromSq := tok.take 2,
    toSq := (tok.drop 2).take 2,
    promo := if tok.length > 4 then (tok.drop 4).take 1 else "q" }

/-- part_002 line 88: `result.opening.toLowerCase().replace(/ /g, '_')`. -/
def slugify (s : String) : String :=
  s.toLower.replace " " "_"

/-- Log lines emitted by part_002 lines 87-98 after a successful engine
move: optional opening line, then one commentary line keyed off the SAN. -/
def aiMoveLogs (r : AiReply) (mv : MoveRec) : List String :=
  (match r.opening with
   | some o => if o ≠ "Unknown" then ["pattern_match: " ++ slugify o] else []
   | none => []) ++
  [if mv.san.contains '+' then "warn: thread_interrupt (check)"
   else if mv.san.contains 'x' then "resource_reclaimed [" ++ mv.san ++ "]"
   else "exec: " ++ mv.san]

/-- Outcome of one `makeAiMove` invocation. `requested` records whether a
request to the Opponent Move Source was issued; `committed` records whether
`updateState` ran (a move was applied to the captured instance); `game` is
the captured instance after the run; `processingAfter` is the value of
`isProcessingTurnRef` when the invocation returns. -/
structure AiOutcome where
  requested : Bool
  committed : Bool
  game : ChessGame
  usedFallback : Bool
  logs : List String
  processingAfter : Bool
deriving DecidableEq, Repr

/-- An early return of `makeAiMove` that touches nothing. -/
def aiNoop (captured : ChessGame) (processingAfter : Bool) : AiOutcome :=
  { requested := false, committed := false, game := captured,
    usedFallback := false, logs := [], processingAfter := processingAfter }

/-- part_002 lines 73-103: try to apply the engine reply. A `none` result
covers a null reply, an empty move token, and a token whose application
threw (the surrounding `catch` swallows the exception). -/
def aiEngineStep (O : Oracle) (captured : ChessGame) (reply : Option AiReply) :
    Option (ChessGame × List String) :=
  match reply with
  | some r =>
    if r.move ≠ "" then
      match O.applyMove captured (lanToInput r.move) with
      | some (mv, g') => some (g', aiMoveLogs r mv)
      | none => none
    else none
  | none => none

/-- part_002 lines 106-114: the random fallback move. `rnd` stands for the
draw of `Math.random()`; the chosen index is `rnd % moves.length`, matching
`Math.floor(Math.random() * moves.length)` ranging over all indices. -/
def aiFallback (O : Oracle) (captured : ChessGame) (rnd : Nat) : AiOutcome :=
  let ms := O.movesSan captured
  if ms.isEmpty then
    { requested := true, committed := false, game := captured,
      usedFallback := false, logs := [], processingAfter := false }
  else
    match O.applySan captured (ms.getD (rnd % ms.length) "") with
    | some g' =>
      { requested := true, committed := true, game := g',
        usedFallback := true, logs := ["executing_fallback_routine"],
        processingAfter := false }
    | none =>
      -- unreachable when the oracle satisfies its contract: the chosen SAN
      -- is drawn from the legal-move list
      { requested := true, committed := false, game := captured,
        usedFallback := true, logs := [], processingAfter := false }

/-- The `makeAiMove` effect body of src/unnamed/part_002 lines 46-130 (the
Turn Coordinator's opponent turn).  `snap` is the `gameState` captured by
the effect closure, `processing` the value of `isProcessingTurnRef` when
the invocation starts, `captured` the `gameInstance` captured by the
closure (the live instance at the post-delay staleness check), `reply` the
resolution of `getAiMoveAndCommentary` (`none` = resolved null). -/
def makeAiMove (O : Oracle) (snap : GameState) (processing : Bool)
    (captured : ChessGame) (reply : Option AiReply) (rnd : Nat) : AiOutcome :=
  if snap.turn ≠ Color.black ∨ snap.isCheckmate = true then
    aiNoop captured processing
  else if processing then
    aiNoop captured true
  else if captured.turn ≠ Color.black then
    aiNoop captured false
  else
    match aiEngineStep O captured reply with
    | some (g', ls) =>
      { requested := true, committed := true, game := g',
        usedFallback := false, logs := ls, processingAfter := false }
    | none => aiFallback O captured rnd

/-- The snapshot visible after a `makeAiMove` run: `updateState` replaces it
with the projection of the (captured) instance exactly when a move was made
(part_002 lines 116-118). -/
def aiSnapshotAfter (out : AiOutcome) (snap : GameState) : GameState :=
  if out.committed then projectGame out.game else snap

/-- Opening log of the Board.tsx lines 49-51 variant. -/
def boardOpeningLogs (r : AiReply) : List String :=
  match r.opening with
  | some o => if o ≠ "Unknown" then ["detecting pattern: " ++ o] else []
  | none => []

/-- The `makeAiMove` effect body of src/components/Board.tsx lines 39-70
(the variant without the re-entrancy ref; its `processingAfter` field is
unused and reported `false`).  Note its shape: the random fallback lives in
the `catch` of the engine-move application, so it runs only when a
non-empty token failed to apply; a null reply, or an empty token, commits
nothing. -/
def makeAiMoveBoard (O : Oracle) (snap : GameState) (captured : ChessGame)
    (reply : Option AiReply) (rnd : Nat) : AiOutcome :=
  if snap.turn ≠ Color.black ∨ snap.isCheckmate = true then
    aiNoop captured false
  else
    match reply with
    | some r =>
      if r.move ≠ "" then
        match O.applySan captured r.move with
        | some g' =>
          { requested := true, committed := true, game := g',
            usedFallback := false,
            logs := boardOpeningLogs r ++ [r.commentary],
            processingAfter := false }
        | none =>
          let ms := O.movesSan captured
          if ms.isEmpty then
            { requested := true, committed := false, game := captured,
              usedFallback := false, logs := [], processingAfter := false }
          else
            match O.applySan captured (ms.getD (rnd % ms.length) "") with
            | some g' =>
              { requested := true, committed := true, game := g',
                usedFallback := true, logs := ["executing fallback protocol."],
                processingAfter := false }
            | none =>
              { requested := true, committed := false, game := captured,
                usedFallback := true, logs := [], processingAfter := false }
      else
        { requested := true, committed := false, game := captured,
          usedFallback := false, logs := [], processingAfter := false }
    | none =>
      { requested := true, committed := false, game := captured,
        usedFallback := false, logs := [], processingAfter := false }

/-- Component state read and written by `handleSquareClick`. -/
structure ClickState where
  game : ChessGame
  snapshot : GameState
  selected : Option String
  possible : List MoveRec
  thinking : Bool
deriving DecidableEq, Repr

/-- The `handleSquareClick` handler of src/unnamed/part_002 lines 133-179.
Returns the new component state together with the move object passed to
chess.js `move(...)` when an application was attempted (the promotion field
is hard-coded to `'q'` at line 144).  A `none` from `applyMove` models the
thrown exception, whose `catch` only clears the selection. -/
def handleSquareClick (O : Oracle) (st : ClickState) (square : String) :
    ClickState × Option MoveInput :=
  if st.snapshot.turn = Color.black ∨ st.thinking = true ∨
      st.snapshot.isCheckmate = true then
    (st, none)
  else
    match st.selected with
    | some sel =>
      match st.possible.find? (fun m => m.toSq = square) with
      | some _ =>
        (match O.applyMove st.game { fromSq := sel, toSq := square, promo := "q" } with
         | some (_, g') =>
           ({ game := g', snapshot := projectGame g', selected := none,
              possible := [], thinking := st.thinking },
            some { fromSq := sel, toSq := square, promo := "q" })
         | none =>
           ({ st with selected := none },
            some { fromSq := sel, toSq := square, promo := "q" }))
      | none =>
        match O.pieceAt st.game square with
        | some p =>
          if p.color = st.snapshot.turn then
            ({ st with
                 selected := some square,
                 possible := O.movesFrom st.game square }, none)
          else
            ({ st with selected := none, possible := [] }, none)
        | none => ({ st with selected := none, possible := [] }, none)
    | none =>
      match O.pieceAt st.game square with
      | some p =>
        if p.color = st.snapshot.turn then
          ({ st with
               selected := some square,
               possible := O.movesFrom st.game square }, none)
        else (st, none)
      | none => (st, none)

/-- types.ts `UserStats.level` tiers. -/
inductive Level where
  | intern
  | juniorDev
  | seniorDev
  | leadArchitect
deriving DecidableEq, Repr

/-- types.ts `UserStats` (ProgressStats). -/
structure UserStats where
  level : Level
  xp : Nat
  streak : Nat
  ticketsClosed : Nat
deriving DecidableEq, Repr

/-- types.ts `Mission.condition` values. -/
inductive Cond where
  | movePiece
  | controlCenter
  | castleCond
  | captureCond
  | checkCond
deriving DecidableEq, Repr

/-- types.ts `Mission`. -/
structure Mission where
  id : String
  title : String
  description : String
  xpReward : Nat
  condition : Cond
  targetPiece : Option Char
  completed : Bool
deriving DecidableEq, Repr

/-- Mission m1 of src/unnamed/part_000 line 22. -/
def m1Mission : Mission :=
  { id := "m1", title := "Init Protocol",
    description := "Move Pawn to e4 or d4 to claim center memory.",
    xpReward := 50, condition := Cond.controlCenter, targetPiece := none,
    completed := false }

/-- Mission m2 of src/unnamed/part_000 line 23. -/
def m2Mission : Mission :=
  { id := "m2", title := "Deploy Assets",
    description := "Develop a Knight (Lead) to f3 or c3.",
    xpReward := 75, condition := Cond.movePiece, targetPiece := some 'n',
    completed := false }

/-- Mission m3 of src/unnamed/part_000 line 24. -/
def m3Mission : Mission :=
  { id := "m3", title := "Secure Kernel",
    description := "Castle (O-O) to protect the CEO.",
    xpReward := 100, condition := Cond.castleCond, targetPiece := none,
    completed := false }

/-- src/unnamed/part_000 lines 21-25: `INITIAL_MISSIONS`. -/
def INITIAL_MISSIONS : List Mission := [m1Mission, m2Mission, m3Mission]

/-- JavaScript `s.includes(pat)`: some suffix of `s` starts with `pat`. -/
def strIncludes (s pat : String) : Bool :=
  s.toList.tails.any (fun t => pat.toList.isPrefixOf t)

/-- JavaScript `s.split(' ')`: split on every single space character. -/
def jsSplitSpace (s : String) : List String :=
  (s.toList.splitOn ' ').map (fun cs => String.mk cs)

/-- One mission's evaluation inside the mission-check effect of
src/unnamed/part_000 lines 82-108, given the verbose last move and the
last-move SAN.  Returns the updated mission, the xp delta and the
tickets-closed delta contributed by this mission. -/
def evalMission (lastObj : MoveRec) (sanMove : String) (m : Mission) :
    Mission × Nat × Nat :=
  if m.completed then (m, 0, 0)
  else
    let cCenter : Bool :=
      match m.condition with
      | Cond.controlCenter => lastObj.toSq == "e4" || lastObj.toSq == "d4"
      | _ => false
    let cPiece : Bool :=
      match m.condition, m.targetPiece with
      | Cond.movePiece, some t => lastObj.piece == t
      | _, _ => false
    let cCastle : Bool :=
      match m.condition with
      | Cond.castleCond => strIncludes sanMove "O-O"
      | _ => false
    if cCenter || cPiece || cCastle then
      ({ m with completed := true }, m.xpReward, 1)
    else (m, 0, 0)

/-- The mission-check effect body over the whole mission list, with the net
effect of the per-completion `setStats` updates (xp and ticketsClosed are
incremented once per newly completed mission). -/
def missionStep (lastObj : MoveRec) (sanMove : String)
    (missions : List Mission) (stats : UserStats) :
    List Mission × UserStats :=
  let results := missions.map (fun m => evalMission lastObj sanMove m)
  (results.map (fun r => r.1),
   { stats with
       xp := stats.xp + (results.map (fun r => r.2.1)).sum,
       ticketsClosed := stats.ticketsClosed + (results.map (fun r => r.2.2)).sum })

/-- The guard of the mission-check effect (part_000 lines 76-80): it runs
only when it has become Black's turn and a last-move SAN is present. -/
def missionEffect (turn : Color) (lastSan : Option String)
    (lastObj : Option MoveRec) (missions : List Mission) (stats : UserStats) :
    List Mission × UserStats :=
  match turn, lastSan, lastObj with
  | Color.black, some san, some mv => missionStep mv san missions stats
  | _, _, _ => (missions, stats)

/-- The standard starting FEN produced by `new Chess()`. -/
def startFen : String :=
  "rnbqkbnr/pppppppp/8/8/8/8/PPPPPPPP/RNBQKBNR w KQkq - 0 1"

/-- Observable state of a freshly constructed chess.js instance. -/
def startingChess : ChessGame :=
  { fen := startFen, turn := Color.white, isCheck := false,
    isCheckmate := false, history := [] }

/-- src/unnamed/part_000 lines 39-44: the initial `UserStats`. -/
def initialStats : UserStats :=
  { level := Level.intern, xp := 0, streak := 4, ticketsClosed := 0 }

/-- App-level state owned by src/unnamed/part_000. -/
structure AppState where
  game : ChessGame
  snapshot : GameState
  missions : List Mission
  stats : UserStats
  hint : Option (String × String)
  logs : List String
deriving DecidableEq, Repr

/-- src/unnamed/part_000 lines 123-137: `resetGame`.  It replaces the
instance and snapshot with the starting position, clears mission
completion and the hint arrow, and appends a log line.  It does not call
`setStats`, so the ProgressStats are left as they were. -/
def resetGame (app : AppState) : AppState :=
  { game := startingChess,
    snapshot := { fen := startingChess.fen, turn := Color.white,
                  isCheck := false, isCheckmate := false, history := [] },
    missions := INITIAL_MISSIONS.map (fun m => { m with completed := false }),
    stats := app.stats,
    hint := none,
    logs := app.logs ++ ["reboot sequence initiated. memory cleared."] }

/-- The app's game/snapshot pair as it stands right after `resetGame`. -/
def resetPair : ChessGame × GameState :=
  (startingChess, projectGame startingChess)

/-- A stale opponent reply: `reset()` ran while the `makeAiMove` invocation
was suspended in its thinking delay.  The invocation resumes with the
closure's captured pre-reset instance `oldGame` and snapshot `oldSnap`
(the app's current instance is the fresh `startingChess`); its staleness
check reads `gameInstance.turn()` on that captured instance, and its
`updateState` writes the captured instance's projection into the shared
snapshot.  Returns the app's (instance, snapshot) pair after the resumed
invocation finishes. -/
def staleReplyAfterReset (O : Oracle) (oldGame : ChessGame)
    (oldSnap : GameState) (reply : Option AiReply) (rnd : Nat) :
    ChessGame × GameState :=
  let out := makeAiMove O oldSnap false oldGame reply rnd
  (resetPair.1,
   if out.committed then projectGame out.game else resetPair.2)

/-- src/services/geminiService.ts lines 184-195: the mini opening book,
keyed by truncated FEN strings. -/
def OPENINGS : List (String × String) :=
  [("rnbqkbnr/pppppppp/8/8/4P3/8/PPPP1PPP/RNBQKBNR b KQkq", "King\x27s Pawn"),
   ("rnbqkbnr/pppppppp/8/8/3P4/8/PPPP1PPP/RNBQKBNR b KQkq", "Queen\x27s Pawn"),
   ("rnbqkbnr/pppppppp/8/8/2P5/8/PP1PPPPP/RNBQKBNR b KQkq", "English"),
   ("rnbqkbnr/pppppppp/8/8/8/5N2/PPPPPPPP/RNBQKB1R b KQkq", "RÃ©ti"),
   ("rnbqkbnr/pppp1ppp/8/4p3/4P3/8/PPPP1PPP/RNBQKBNR w KQkq", "Open Game"),
   ("rnbqkbnr/pp1ppppp/8/2p5/4P3/8/PPPP1PPP/RNBQKBNR w KQkq", "Sicilian"),
   ("rnbqkbnr/pppp1ppp/4p3/8/4P3/8/PPPP1PPP/RNBQKBNR w KQkq", "French"),
   ("rnbqkbnr/pp1ppppp/2p5/8/4P3/8/PPPP1PPP/RNBQKBNR w KQkq", "Caro-Kann"),
   ("rnbqkbnr/ppp1pppp/8/3p4/3P4/8/PPP1PPPP/RNBQKBNR w KQkq", "Closed Game"),
   ("rnbqkbnr/ppp1pppp/8/3p4/4P3/8/PPPP1PPP/RNBQKBNR w KQkq", "Scandinavian")]

/-- geminiService.ts lines 325-334: the opening-book lookup on the FEN
truncated to its first four space-separated fields. -/
def fenOpeningLookup (fen : String) : Option String :=
  let fenParts := jsSplitSpace fen
  let positionFen := String.intercalate " " (fenParts.take 4)
  (OPENINGS.find? (fun kv => strIncludes fen kv.1 || strIncludes kv.1 positionFen)).map
    (fun kv => kv.2)

/-- The value the `getBestMoveFromStockfish` promise resolves with. -/
structure BestMoveRes where
  bestMove : String
  evalScore : Int
deriving DecidableEq, Repr

/-- geminiService.ts lines 267-289: `getBestMoveFromStockfish`.  The engine
worker is modelled by the list of message lines it emits for this request
(`none` = worker was never created: failed fetch, no Worker, network
failure).  The outer `none` means the promise never resolves (no line ever
starts with `bestmove`); `line.startsWith('bestmove')` is modelled as a
character-list prefix test, and `line.split(' ')[1]` being `undefined` on
a bare `bestmove` line is modelled as the empty string, which the callers
treat identically (both are falsy in the source). -/
def getBestMoveFromStockfish (engine : Option (List String)) (fen : String)
    (depth : Nat) : Option BestMoveRes :=
  match engine with
  | none => some { bestMove := "", evalScore := 0 }
  | some lines =>
    match lines.find? (fun l => "bestmove".toList.isPrefixOf l.toList) with
    | some l => some { bestMove := (jsSplitSpace l).getD 1 "", evalScore := 0 }
    | none => none

/-- geminiService.ts lines 318-352: `getAiMoveAndCommentary`.  The outer
`Option` is promise resolution (`none` = never resolves, pending engine);
the inner `Option AiReply` is the resolved value (`none` = resolved
`null`).  The function never throws: every failure mode is a value. -/
def getAiMoveAndCommentary (engine : Option (List String)) (fen : String)
    (history : List String) (isStealth : Bool) (playerRating : Nat) :
    Option (Option AiReply) :=
  let openingName := fenOpeningLookup fen
  match getBestMoveFromStockfish engine fen 5 with
  | none => none
  | some res =>
    if res.bestMove = "" then some none
    else
      some (some { move := res.bestMove,
                   commentary := "calc_complete: " ++ res.bestMove,
                   opening := openingName })

/-- geminiService.ts lines 201-235: the CONCEPT_LOGS check phrases. -/
def conceptCheck : List String :=
  ["alert: king_exposed", "priority: defend_king", "threat: immediate"]

/-- CONCEPT_LOGS capture phrases. -/
def conceptCapture : List String :=
  ["material_acquired", "threat_eliminated", "exchange_complete",
   "unit_captured"]

/-- CONCEPT_LOGS castle phrases. -/
def conceptCastle : List String :=
  ["security_patch: king_safety", "network: rooks_connected",
   "defense_matrix: enabled"]

/-- CONCEPT_LOGS good phrases. -/
def conceptGood : List String :=
  ["strategy: space_advantage", "tactic: pin_created",
   "tactic: fork_opportunity", "position: improved", "structure: solid"]

/-- `phrases[Math.floor(Math.random() * phrases.length)]`: `rnd` stands for
the random draw, reduced modulo the list length. -/
def pick (l : List String) (rnd : Nat) : String :=
  l.getD (rnd % l.length) ""

/-- geminiService.ts lines 294-315: `generateCommentary`. -/
def generateCommentary (moveSan : String) (isStealth : Bool)
    (isCheck isCapture isCastle : Bool) (openingName : Option String)
    (rnd : Nat) : String :=
  match openingName with
  | some name => "protocol_match: " ++ slugify name
  | none =>
    let basePhrase :=
      if isCheck then pick conceptCheck rnd
      else if isCapture then pick conceptCapture rnd
      else if isCastle then pick conceptCastle rnd
      else pick conceptGood rnd
    basePhrase ++ " [mv:" ++ moveSan ++ "]"

/-- The phrase categories named by the spec for the Move Commentator. -/
inductive PhraseCat where
  | openingCat
  | checkCat
  | captureCat
  | castleCat
  | genericCat
deriving DecidableEq, Repr

/-- Modelled from the spec: the Move Commentator's priority order
`opening match > check > capture > castle > generic` (spec section 4.3),
used as the specification side of the refinement theorem for C9. -/
def specCategory (openingName : Option String)
    (isCheck isCapture isCastle : Bool) : PhraseCat :=
  if openingName.isSome then PhraseCat.openingCat
  else if isCheck then PhraseCat.checkCat
  else if isCapture then PhraseCat.captureCat
  else if isCastle then PhraseCat.castleCat
  else PhraseCat.genericCat

/-- The phrase set belonging to each non-opening category. -/
def phrasesOf : PhraseCat → List String
  | PhraseCat.openingCat => []
  | PhraseCat.checkCat => conceptCheck
  | PhraseCat.captureCat => conceptCapture
  | PhraseCat.castleCat => conceptCastle
  | PhraseCat.genericCat => conceptGood

/-- The spec-shaped commentator: exactly one category, chosen by the
priority order, supplies the phrase. -/
def specCommentary (moveSan : String) (isCheck isCapture isCastle : Bool)
    (openingName : Option String) (rnd : Nat) : String :=
  match openingName with
  | some name => "protocol_match: " ++ slugify name
  | none =>
    pick (phrasesOf (specCategory none isCheck isCapture isCastle)) rnd ++
      " [mv:" ++ moveSan ++ "]"

/-- Modelled from the spec: the board's four center squares (spec sections
4.4 and 8), used only to state the counterexample for C7. -/
def specCenterSquares : List String := ["d4", "e4", "d5", "e5"]

/- Concrete test fixtures: a tiny Rules Oracle with a handful of states,
used to instantiate the general theorems. -/

/-- Toy position after 1.e4 (Black to move). -/
def gB : ChessGame :=
  { fen := "fen_after_e4", turn := Color.black, isCheck := false,
    isCheckmate := false, history := ["e4"] }

/-- Toy position after 1.e4 e5 (White to move). -/
def gW1 : ChessGame :=
  { fen := "fen_after_e4_e5", turn := Color.white, isCheck := false,
    isCheckmate := false, history := ["e4", "e5"] }

/-- Toy position after 1.e4 Nc6 (White to move). -/
def gW2 : ChessGame :=
  { fen := "fen_after_e4_Nc6", turn := Color.white, isCheck := false,
    isCheckmate := false, history := ["e4", "Nc6"] }

/-- The verbose record of 1.e4 in the toy oracle. -/
def mvE2E4 : MoveRec :=
  { fromSq := "e2", toSq := "e4", piece := 'p', san := "e4" }

/-- The verbose record of 1...e5 in the toy oracle. -/
def mvE7E5 : MoveRec :=
  { fromSq := "e7", toSq := "e5", piece := 'p', san := "e5" }

def toyMovesSan (g : ChessGame) : List String :=
  if g = gB then ["e5", "Nc6"] else []

def toyApplySan (g : ChessGame) (s : String) : Option ChessGame :=
  if g = gB ∧ s = "e5" then some gW1
  else if g = gB ∧ s = "Nc6" then some gW2
  else none

def toyApplyMove (g : ChessGame) (i : MoveInput) : Option (MoveRec × ChessGame) :=
  if g = startingChess ∧ i = { fromSq := "e2", toSq := "e4", promo := "q" } then
    some (mvE2E4, gB)
  else if g = gB ∧ i = { fromSq := "e7", toSq := "e5", promo := "q" } then
    some (mvE7E5, gW1)
  else none

def toyPieceAt (g : ChessGame) (sq : String) : Option Piece :=
  if g = startingChess ∧ sq = "e2" then some { ptype := 'p', color := Color.white }
  else none

def toyMovesFrom (g : ChessGame) (sq : String) : List MoveRec :=
  if g = startingChess ∧ sq = "e2" then [mvE2E4] else []

/-- A concrete Rules Oracle satisfying the interface contract, used as the
witness instantiation. -/
def toyOracle : Oracle where
  movesSan := toyMovesSan
  applySan := toyApplySan
  applyMove := toyApplyMove
  pieceAt := toyPieceAt
  movesFrom := toyMovesFrom
  applySan_some := by
    intro g s h
    simp only [toyMovesSan] at h
    split at h
    · rename_i hg
      subst hg
      simp only [List.mem_cons, List.not_mem_nil, or_false] at h
      rcases h with h | h
      · subst h; rfl
      · subst h; rfl
    · simp at h
  applySan_turn := by
    intro g s g' h
    simp only [toyApplySan] at h
    split at h
    · rename_i hc
      obtain ⟨hg, _⟩ := hc
      subst hg
      cases h
      rfl
    · split at h
      · rename_i hc
        obtain ⟨hg, _⟩ := hc
        subst hg
        cases h
        rfl
      · cases h

/-- An app state mid-game with accumulated stats, used for the reset
counterexample. -/
def appDemo : AppState :=
  { game := gW1, snapshot := projectGame gW1, missions := INITIAL_MISSIONS,
    stats := { level := Level.intern, xp := 999, streak := 4, ticketsClosed := 3 },
    hint := none, logs := [] }

/-- A white move whose destination d5 is a center square the mission check
does not test for. -/
def dMove : MoveRec :=
  { fromSq := "f3", toSq := "d5", piece := 'n', san := "Nd5" }

/-- An opponent reply carrying a token that is illegal in the toy position
`gB` (the scenario of spec section 8). -/
def r0 : AiReply :=
  { move := "g1f3", commentary := "calc_complete: g1f3", opening := none }

/-- Component state during the opponent's turn. -/
def stBlack : ClickState :=
  { game := gB, snapshot := projectGame gB, selected := none, possible := [],
    thinking := false }

/-- Component state with e2 selected at the starting position. -/
def stSelected : ClickState :=
  { game := startingChess, snapshot := projectGame startingChess,
    selected := some "e2", possible := [mvE2E4], thinking := false }

/- Theorems. -/

/-- Helper: when the legal-move list is non-empty, the fallback branch
commits exactly one move drawn from that list. -/
theorem aiFallback_commits (O : Oracle) (captured : ChessGame) (rnd : Nat)
    (hms : O.movesSan captured ≠ []) :
    ∃ san, san ∈ O.movesSan captured ∧
      O.applySan captured san = some (aiFallback O captured rnd).game ∧
      (aiFallback O captured rnd).requested = true ∧
      (aiFallback O captured rnd).committed = true ∧
      (aiFallback O captured rnd).usedFallback = true ∧
      (aiFallback O captured rnd).processingAfter = false := by
  have hlen : 0 < (O.movesSan captured).length := List.length_pos.mpr hms
  have hidx : rnd % (O.movesSan captured).length < (O.movesSan captured).length :=
    Nat.mod_lt _ hlen
  have hmem : (O.movesSan captured).getD (rnd % (O.movesSan captured).length) ""
      ∈ O.movesSan captured := by
    rw [List.getD_eq_getElem _ _ hidx]
    exact List.getElem_mem _
  obtain ⟨g', hg'⟩ := Option.isSome_iff_exists.mp
    (O.applySan_some captured _ hmem)
  have hne : (O.movesSan captured).isEmpty = false := by
    simp [List.isEmpty_iff, hms]
  refine ⟨(O.movesSan captured).getD (rnd % (O.movesSan captured).length) "",
    hmem, ?_⟩
  simp only [aiFallback, hne, Bool.false_eq_true, if_false, hg']
  simp

/-- Helper: with the guards passing and the staleness check seeing Black to
move, `makeAiMove` reduces to the engine step followed by the fallback. -/
theorem makeAiMove_reduces (O : Oracle) (snap : GameState)
    (captured : ChessGame) (reply : Option AiReply) (rnd : Nat)
    (hT : snap.turn = Color.black) (hM : snap.isCheckmate = false)
    (hC : captured.turn = Color.black)
    (hstep : aiEngineStep O captured reply = none) :
    makeAiMove O snap false captured reply rnd = aiFallback O captured rnd := by
  simp [makeAiMove, hT, hM, hC, hstep]

/-- C1 (amended): when the Opponent Move Source yields no usable move token
(a null reply or an empty token), the part_002 Turn Coordinator — guards
passing and a legal move existing — issues the request, commits exactly one
legal move for the opponent via the random fallback, and leaves the
awaiting-opponent state (the resulting side to move is White).  In the
Board.tsx variant the null reply instead commits nothing (see the
counterexample theorem). -/
theorem makeAiMove_no_answer_fallback (O : Oracle) (snap : GameState)
    (captured : ChessGame) (reply : Option AiReply) (rnd : Nat)
    (hT : snap.turn = Color.black) (hM : snap.isCheckmate = false)
    (hC : captured.turn = Color.black)
    (hNo : reply = none ∨ ∃ r, reply = some r ∧ r.move = "")
    (hms : O.movesSan captured ≠ []) :
    ∃ san, san ∈ O.movesSan captured ∧
      O.applySan captured san =
        some (makeAiMove O snap false captured reply rnd).game ∧
      (makeAiMove O snap false captured reply rnd).requested = true ∧
      (makeAiMove O snap false captured reply rnd).committed = true ∧
      (makeAiMove O snap false captured reply rnd).usedFallback = true ∧
      (makeAiMove O snap false captured reply rnd).game.turn = Color.white := by
  have hstep : aiEngineStep O captured reply = none := by
    rcases hNo with h | ⟨r, hr, hmv⟩
    · rw [h]; rfl
    · rw [hr]; simp [aiEngineStep, hmv]
  rw [makeAiMove_reduces O snap captured reply rnd hT hM hC hstep]
  obtain ⟨san, h1, h2, h3, h4, h5, _⟩ := aiFallback_commits O captured rnd hms
  refine ⟨san, h1, h2, h3, h4, h5, ?_⟩
  rw [O.applySan_turn _ _ _ h2, hC]
  rfl

/-- C1 witness: in the toy position after 1.e4 with a null engine reply,
the part_002 coordinator commits the random fallback move. -/
theorem makeAiMove_no_answer_fallback_witness :
    (projectGame gB).turn = Color.black ∧ toyOracle.movesSan gB ≠ [] ∧
    ∃ san, san ∈ toyOracle.movesSan gB ∧
      toyOracle.applySan gB san =
        some (makeAiMove toyOracle (projectGame gB) false gB none 0).game ∧
      (makeAiMove toyOracle (projectGame gB) false gB none 0).requested = true ∧
      (makeAiMove toyOracle (projectGame gB) false gB none 0).committed = true ∧
      (makeAiMove toyOracle (projectGame gB) false gB none 0).usedFallback = true ∧
      (makeAiMove toyOracle (projectGame gB) false gB none 0).game.turn = Color.white :=
  ⟨rfl, by decide,
   makeAiMove_no_answer_fallback toyOracle (projectGame gB) gB none 0 rfl rfl rfl
     (Or.inl rfl) (by decide)⟩

/-- C1 counterexample: the Board.tsx lines 39-70 coordinator, given the
null ("no answer") reply in a position with legal moves available, issues
the request but commits no move at all — the random fallback lives inside
the `catch` of the engine-move application and never runs for a null
reply.  This refutes the claim that every no-answer turn commits exactly
one legal move. -/
theorem makeAiMoveBoard_no_answer_commits_nothing :
    toyOracle.movesSan gB ≠ [] ∧
    (makeAiMoveBoard toyOracle (projectGame gB) gB none 0).requested = true ∧
    (makeAiMoveBoard toyOracle (projectGame gB) gB none 0).committed = false ∧
    (makeAiMoveBoard toyOracle (projectGame gB) gB none 0).game = gB :=
  ⟨by decide, rfl, rfl, rfl⟩

/-- C2: when the opponent reply carries a move token that does not apply as
a legal move in the current position (chess.js throws, the coordinator
catches), the part_002 Turn Coordinator commits a random legal move
instead: the committed move is drawn from the Rules Oracle's legal-move
list, the run is a total function (nothing propagates), and the snapshot
after the run is exactly the projection of the live instance — consistent
with the Rules Oracle. -/
theorem makeAiMove_illegal_token_fallback (O : Oracle) (snap : GameState)
    (captured : ChessGame) (r : AiReply) (rnd : Nat)
    (hT : snap.turn = Color.black) (hM : snap.isCheckmate = false)
    (hC : captured.turn = Color.black)
    (hTok : r.move ≠ "")
    (hIll : O.applyMove captured (lanToInput r.move) = none)
    (hms : O.movesSan captured ≠ []) :
    ∃ san, san ∈ O.movesSan captured ∧
      O.applySan captured san =
        some (makeAiMove O snap false captured (some r) rnd).game ∧
      (makeAiMove O snap false captured (some r) rnd).committed = true ∧
      (makeAiMove O snap false captured (some r) rnd).usedFallback = true ∧
      aiSnapshotAfter (makeAiMove O snap false captured (some r) rnd) snap =
        projectGame (makeAiMove O snap false captured (some r) rnd).game ∧
      (makeAiMove O snap false captured (some r) rnd).game.turn = Color.white := by
  have hstep : aiEngineStep O captured (some r) = none := by
    simp [aiEngineStep, hTok, hIll]
  rw [makeAiMove_reduces O snap captured (some r) rnd hT hM hC hstep]
  obtain ⟨san, h1, h2, h3, h4, h5, _⟩ := aiFallback_commits O captured rnd hms
  refine ⟨san, h1, h2, h4, h5, ?_, ?_⟩
  · simp [aiSnapshotAfter, h4]
  · rw [O.applySan_turn _ _ _ h2, hC]
    rfl

/-- C2 witness: in the toy position after 1.e4, the reply token `g1f3`
(illegal there) triggers the random legal fallback. -/
theorem makeAiMove_illegal_token_fallback_witness :
    r0.move ≠ "" ∧ toyOracle.applyMove gB (lanToInput r0.move) = none ∧
    ∃ san, san ∈ toyOracle.movesSan gB ∧
      toyOracle.applySan gB san =
        some (makeAiMove toyOracle (projectGame gB) false gB (some r0) 1).game ∧
      (makeAiMove toyOracle (projectGame gB) false gB (some r0) 1).committed = true ∧
      (makeAiMove toyOracle (projectGame gB) false gB (some r0) 1).usedFallback = true ∧
      aiSnapshotAfter (makeAiMove toyOracle (projectGame gB) false gB (some r0) 1)
          (projectGame gB) =
        projectGame (makeAiMove toyOracle (projectGame gB) false gB (some r0) 1).game ∧
      (makeAiMove toyOracle (projectGame gB) false gB (some r0) 1).game.turn = Color.white :=
  ⟨by decide, by decide,
   makeAiMove_illegal_token_fallback toyOracle (projectGame gB) gB r0 1 rfl rfl rfl
     (by decide) (by decide) (by decide)⟩

/-- C3 counterexample: `resetGame` called on a state with accumulated
ProgressStats leaves those stats untouched — it never calls `setStats`, so
xp stays at 999 instead of returning to the default 0.  This refutes the
claim that reset restores ProgressStats to their initial values. -/
theorem resetGame_keeps_stats :
    (resetGame appDemo).stats =
      { level := Level.intern, xp := 999, streak := 4, ticketsClosed := 3 } ∧
    (resetGame appDemo).stats ≠ initialStats :=
  ⟨rfl, by decide⟩

/-- C3 (amended): `resetGame` called at any state returns the instance and
snapshot to the starting position with side-to-move White and empty
history, re-creates the mission list with every completed flag false, and
clears the hint — but it leaves the ProgressStats exactly as they were. -/
theorem resetGame_spec (app : AppState) :
    (resetGame app).game = startingChess ∧
    (resetGame app).snapshot = projectGame startingChess ∧
    (resetGame app).snapshot.turn = Color.white ∧
    (resetGame app).snapshot.history = [] ∧
    ((resetGame app).missions.all fun m => !m.completed) = true ∧
    (resetGame app).missions = INITIAL_MISSIONS.map (fun m => { m with completed := false }) ∧
    (resetGame app).hint = none ∧
    (resetGame app).stats = app.stats :=
  ⟨rfl, rfl, rfl, rfl, rfl, rfl, rfl, rfl⟩

/-- C4: a square click arriving while it is the opponent's turn
(`gameState.turn === BLACK`) or after checkmate returns through the guard
at the top of `handleSquareClick`: the component state, the live instance,
and the snapshot are all left exactly as they were and no move application
is attempted. -/
theorem handleSquareClick_rejects_when_not_human_turn (O : Oracle)
    (st : ClickState) (square : String)
    (h : st.snapshot.turn = Color.black ∨ st.snapshot.isCheckmate = true) :
    handleSquareClick O st square = (st, none) := by
  unfold handleSquareClick
  rcases h with h | h
  · rw [if_pos (Or.inl h)]
  · rw [if_pos (Or.inr (Or.inr h))]

/-- C4 witness: a click during the opponent's turn is a no-op. -/
theorem handleSquareClick_rejects_witness :
    stBlack.snapshot.turn = Color.black ∧
    handleSquareClick toyOracle stBlack "e2" = (stBlack, none) :=
  ⟨rfl,
   handleSquareClick_rejects_when_not_human_turn toyOracle stBlack "e2" (Or.inl rfl)⟩

/-- C5 (code bug): a `reset()` during the opponent's thinking delay does
NOT cause the late reply to be discarded.  `resetGame` replaces the
chess.js instance with a fresh object, but the in-flight `makeAiMove`
closure still holds the pre-reset instance, so its staleness check
(`gameInstance.turn() !== 'b'`, part_002 line 62) reads the captured
instance — still Black to move — and passes.  The resumed invocation
applies a move to the detached pre-reset instance and its `updateState`
overwrites the shared snapshot with that stale game: here the snapshot
ends at ply 2 of the discarded game instead of remaining the ply-0 reset
snapshot. -/
theorem staleReply_after_reset_mutates_snapshot :
    (staleReplyAfterReset toyOracle gB (projectGame gB) none 0).2.history =
      ["e4", "e5"] ∧
    (staleReplyAfterReset toyOracle gB (projectGame gB) none 0).2 ≠
      projectGame startingChess ∧
    (staleReplyAfterReset toyOracle gB (projectGame gB) none 0).1 = startingChess :=
  ⟨rfl, by decide, rfl⟩

/-- C6: a trigger of the opponent-turn handler while `isProcessingTurnRef`
is already set is a complete no-op: no request is issued, no move is
committed, the instance is untouched, no log is written, and the ref stays
set — so at most one opponent request is in flight per ply. -/
theorem makeAiMove_reentrancy_noop (O : Oracle) (snap : GameState)
    (captured : ChessGame) (reply : Option AiReply) (rnd : Nat) :
    makeAiMove O snap true captured reply rnd = aiNoop captured true ∧
    (aiNoop captured true).requested = false ∧
    (aiNoop captured true).committed = false ∧
    (aiNoop captured true).game = captured := by
  refine ⟨?_, rfl, rfl, rfl⟩
  unfold makeAiMove
  split
  · rfl
  · rfl

/-- C7 counterexample: the human move Nd5 lands on d5 — one of the board's
four center squares — yet mission m1 stays incomplete and awards nothing,
because the mission check tests only e4 and d4 (part_000 line 89).  This
refutes the claim that m1 completes exactly on the four center squares. -/
theorem mission_m1_center_d5_not_completed :
    "d5" ∈ specCenterSquares ∧
    (evalMission dMove "Nd5" m1Mission).1.completed = false ∧
    evalMission dMove "Nd5" m1Mission = (m1Mission, 0, 0) :=
  ⟨by decide, rfl, rfl⟩

/-- C7 (amended): for every committed human move, mission m1 completes if
and only if the move's destination is e4 or d4 (two of the four center
squares — the only ones the code tests); once completed it is returned
unchanged with a zero xp and tickets delta, so its 50 xp reward and its
ticketsClosed increment happen exactly once and it never reverts except
through reset. -/
theorem evalMission_m1_spec (c : Bool) (lastObj : MoveRec) (sanMove : String) :
    evalMission lastObj sanMove { m1Mission with completed := c } =
      if c then ({ m1Mission with completed := true }, 0, 0)
      else if lastObj.toSq = "e4" ∨ lastObj.toSq = "d4" then
        ({ m1Mission with completed := true }, 50, 1)
      else ({ m1Mission with completed := false }, 0, 0) := by
  cases c
  · by_cases h4 : lastObj.toSq = "e4" <;> by_cases h5 : lastObj.toSq = "d4" <;>
      simp [evalMission, m1Mission, h4, h5]
  · simp [evalMission]

/-- C8 counterexample: with the engine never initialized, the adapter
`getAiMoveAndCommentary` resolves to `null` (`some none`), not to a reply
object carrying an empty moveToken — the `{bestMove: ''}` value is what
the inner `getBestMoveFromStockfish` promise resolves with, and the
adapter turns it into `null` via `if (!bestMove) return null`.  This
refutes the claim that the adapter's request resolves to the reply
`{moveToken: ""}`. -/
theorem adapter_resolves_null_not_empty_token :
    getAiMoveAndCommentary none startFen [] true 650 = some none ∧
    ¬ ∃ rep, getAiMoveAndCommentary none startFen [] true 650 = some (some rep) ∧
        rep.move = "" := by
  refine ⟨rfl, ?_⟩
  rintro ⟨rep, h, _⟩
  have h0 : getAiMoveAndCommentary none startFen [] true 650 = some none := rfl
  have h2 : some (some rep) = (some (none : Option AiReply)) := h.symm.trans h0
  exact Option.noConfusion (Option.some.inj h2)

/-- C8 (amended): for the expected failure modes the adapter never throws
(it is a total function of its inputs) and resolves to the no-answer
value: with no engine worker (failed init / network failure) the inner
engine request resolves `{bestMove: ""}` and the adapter resolves `null`;
a malformed `bestmove` reply line with no token likewise resolves
`null`. -/
theorem adapter_failure_resolves_null (fen : String) (history : List String)
    (isStealth : Bool) (playerRating : Nat) :
    getBestMoveFromStockfish none fen 5 =
      some { bestMove := "", evalScore := 0 } ∧
    getAiMoveAndCommentary none fen history isStealth playerRating = some none ∧
    getAiMoveAndCommentary (some ["bestmove"]) fen history isStealth playerRating =
      some none :=
  ⟨rfl, rfl, rfl⟩

/-- C9: `generateCommentary` selects its phrase by the fixed priority
order of the spec — opening match first, then check, then capture, then
castle, then a generic phrase — and exactly one category's phrase set is
used per call: it coincides with the spec-shaped commentator built from
`specCategory`. -/
theorem generateCommentary_matches_spec_priority (moveSan : String)
    (isStealth : Bool) (isCheck isCapture isCastle : Bool)
    (openingName : Option String) (rnd : Nat) :
    generateCommentary moveSan isStealth isCheck isCapture isCastle openingName rnd =
      specCommentary moveSan isCheck isCapture isCastle openingName rnd := by
  cases openingName <;> cases isCheck <;> cases isCapture <;> cases isCastle <;> rfl

/-- C10: every move application attempted through `handleSquareClick`
passes the promotion piece `'q'` — the public human move path never
submits any other promotion piece, regardless of which squares were
clicked. -/
theorem handleSquareClick_promotion_always_queen (O : Oracle)
    (st : ClickState) (square : String) (inp : MoveInput)
    (h : (handleSquareClick O st square).2 = some inp) :
    inp.promo = "q" := by
  unfold handleSquareClick at h
  split at h
  · exact Option.noConfusion h
  · split at h
    · split at h
      · split at h <;> (injection h with h; subst h; rfl)
      · split at h
        · split at h <;> exact Option.noConfusion h
        · exact Option.noConfusion h
    · split at h
      · split at h <;> exact Option.noConfusion h
      · exact Option.noConfusion h

/-- C10 witness: clicking e2 then e4 at the starting position attempts the
move with promotion `'q'`. -/
theorem handleSquareClick_promotion_witness :
    (handleSquareClick toyOracle stSelected "e4").2 =
      some { fromSq := "e2", toSq := "e4", promo := "q" } ∧
    ({ fromSq := "e2", toSq := "e4", promo := "q" } : MoveInput).promo = "q" :=
  ⟨rfl, handleSquareClick_promotion_always_queen toyOracle stSelected "e4" _ rfl⟩

end ChessTrainer
